import Mathlib

/-!
# SYCL/Sampler/basic-rw.cpp : write four pixels to a 1-D image, read them back, print them

A shallow embedding of `outputPixel`, `test_rw` and `main`.

The SYCL runtime (queue, device, image, buffer, accessors, events) and `std::cout` are
not part of the file under study.  They are modelled by an explicit program state:

* `cout` is the text written to standard output so far;
* `calls` is the list of runtime calls made so far, oldest first;
* `image_1D` and `testResults` are the two resources of the test block;
* a submitted kernel is carried by its `event` and takes effect when the event is waited
  on, so that nothing a kernel does is visible to the host before `wait` has returned;
* an indexed access outside its resource, or a read of an element that was never
  written, makes the run fail (`none`).

What an image retains of a written pixel is a parameter of the device (`device.stored`),
so that the results about exit code, call order and index bounds hold whatever the
device stores, and the read-back results state the store law they rely on.

The counters `int i`, `int idx`, `int numTests` and `long width` never leave `0..4`;
they are natural numbers here.  The channels of `sycl::uint4` are natural numbers.
-/

namespace BasicRW

/-! ## Runtime types used by the program -/

/-- Enumerators of `cl::sycl::image_channel_order` (SYCL 1.2.1). -/
inductive image_channel_order where
  | a | r | rx | rg | rgx | ra | rgb | rgbx | rgba | argb | bgra
  | intensity | luminance | abgr
  deriving DecidableEq, Repr

/-- Enumerators of `cl::sycl::image_channel_type` (SYCL 1.2.1). -/
inductive image_channel_type where
  | snorm_int8 | snorm_int16 | unorm_int8 | unorm_int16
  | unorm_short_565 | unorm_short_555 | unorm_int_101010
  | signed_int8 | signed_int16 | signed_int32
  | unsigned_int8 | unsigned_int16 | unsigned_int32
  | fp16 | fp32
  deriving DecidableEq, Repr

/-- The vector type `sycl::uint4`; `s0 .. s3` are the elements `[0] .. [3]`. -/
structure uint4 where
  s0 : Nat
  s1 : Nat
  s2 : Nat
  s3 : Nat
  deriving DecidableEq, Repr

/-- Source line 29: `using pixelT = sycl::uint4;`. -/
abbrev pixelT := uint4

/-- The two kernels of `test_rw`, by their kernel names. -/
inductive Kernel where
  | setupUnormLinear
  | im1D_Unorm_Linear
  deriving DecidableEq, Repr

/-- One call into the runtime, as recorded in the trace of a run. -/
inductive Call where
  | queue_ctor (q : Nat)
  | get_device (q : Nat)
  | has_image (answer : Bool)
  | image_ctor (order : image_channel_order) (chan : image_channel_type) (range : Nat)
  | buffer_ctor (range : Nat)
  | submit (q : Nat) (k : Kernel)
  | wait (k : Kernel)
  | image_write (coord : Nat)
  | image_read (coord : Nat)
  | result_write (i : Nat)
  | host_access
  | host_read (i : Nat)
  | buffer_dtor
  | image_dtor
  deriving DecidableEq, Repr

/-- The device the default selector picks: whether it has `aspect::image`, and what an
image of a given format retains of a pixel written to it. -/
structure device where
  image_support : Bool
  stored : image_channel_order → image_channel_type → pixelT → pixelT

/-- A 1-D image: its format and its elements (`none`: never written). -/
structure image where
  order : image_channel_order
  chan : image_channel_type
  texels : List (Option pixelT)

/-- Program state: standard output, trace of runtime calls, number of queues constructed,
and the two resources of the test block (`none`: not alive). -/
structure State where
  cout : String
  calls : List Call
  queues : Nat
  image_1D : Option image
  testResults : Option (List (Option pixelT))

/-- State at program start. -/
def State.init : State := ⟨"", [], 0, none, none⟩

/-- Append one call to the trace. -/
def State.log (s : State) (c : Call) : State :=
  { s with calls := s.calls ++ [c] }

/-! ## Standard output -/

/-- Text insertion `std::cout << "..."`. -/
def put (text : String) (s : State) : State :=
  { s with cout := s.cout ++ text }

/-- Integer insertion `std::cout << n`: decimal digits, no padding. -/
def put_uint (n : Nat) (s : State) : State :=
  put (Nat.repr n) s

/-- Manipulator `std::endl`: a newline (the flush is not observable here). -/
def endl (s : State) : State :=
  put "\n" s

/-- Source lines 33-36. -/
def outputPixel (somePixel : uint4) (s : State) : State :=
  s |> put "\x7b" |> put_uint somePixel.s0 |> put "," |> put_uint somePixel.s1
    |> put "," |> put_uint somePixel.s2 |> put "," |> put_uint somePixel.s3 |> put "\x7d "

/-! ## Runtime operations -/

/-- A queue: its number in order of construction, and its device. -/
structure queue where
  handle : Nat
  dev : device

/-- Default construction `queue Q;` on the device `env` that the default selector picks. -/
def queue.ctor (env : device) (s : State) : queue × State :=
  (⟨s.queues, env⟩, { s with queues := s.queues + 1 }.log (.queue_ctor s.queues))

/-- Call `Q.get_device()`. -/
def queue.get_device (Q : queue) (s : State) : device × State :=
  (Q.dev, s.log (.get_device Q.handle))

/-- Call `D.has(aspect::image)`. -/
def device.has_aspect_image (D : device) (s : State) : Bool × State :=
  (D.image_support, s.log (.has_image D.image_support))

/-- Construction `image<1> image_1D(ChanOrder, ChanType, ImgRange_1D)`. -/
def image_ctor (ChanOrder : image_channel_order) (ChanType : image_channel_type)
    (range : Nat) (s : State) : State :=
  { s with image_1D := some ⟨ChanOrder, ChanType, List.replicate range none⟩ }.log
    (.image_ctor ChanOrder ChanType range)

/-- Call `image_acc.write(coord, color)`. -/
def image_acc_write (D : device) (coord : Nat) (color : pixelT) (s : State) : Option State :=
  match s.image_1D with
  | none => none
  | some img =>
    if coord < img.texels.length then
      some ({ s with image_1D := some { img with
                texels := img.texels.set coord (some (D.stored img.order img.chan color)) } }.log
              (.image_write coord))
    else none

/-- Call `image_acc.read(coord)`. -/
def image_acc_read (coord : Nat) (s : State) : Option (pixelT × State) :=
  match s.image_1D with
  | none => none
  | some img =>
    match img.texels[coord]? with
    | some (some p) => some (p, s.log (.image_read coord))
    | _ => none

/-- Construction `buffer<pixelT, 1> testResults((range<1>(numTests)))`. -/
def buffer_ctor (range : Nat) (s : State) : State :=
  { s with testResults := some (List.replicate range none) }.log (.buffer_ctor range)

/-- Device-side store `test_acc[i] = v`. -/
def test_acc_store (i : Nat) (v : pixelT) (s : State) : Option State :=
  match s.testResults with
  | none => none
  | some buf =>
    if i < buf.length then
      some ({ s with testResults := some (buf.set i (some v)) }.log (.result_write i))
    else none

/-- Host accessor `testResults.get_access<access::mode::read>()`. -/
def host_get_access (s : State) : Option State :=
  match s.testResults with
  | none => none
  | some _ => some (s.log .host_access)

/-- Host-side load `test_acc[i]`. -/
def test_acc_load (i : Nat) (s : State) : Option (pixelT × State) :=
  match s.testResults with
  | none => none
  | some buf =>
    match buf[i]? with
    | some (some p) => some (p, s.log (.host_read i))
    | _ => none

/-- End of the block (source line 104): `~buffer`, then `~image`. -/
def scope_exit (s : State) : State :=
  ({ s with image_1D := none, testResults := none }.log .buffer_dtor).log .image_dtor

/-- Completion token of a submitted kernel, with the work it stands for. -/
structure event where
  kernel : Kernel
  work : State → Option State

/-- Call `Q.submit(...)` with a `single_task` kernel. -/
def queue.submit (Q : queue) (k : Kernel) (work : State → Option State) (s : State) :
    event × State :=
  (⟨k, work⟩, s.log (.submit Q.handle k))

/-- Call `E.wait()`: the kernel has run when it returns; the call is logged on return. -/
def event.wait (E : event) (s : State) : Option State :=
  (E.work s).map (fun s1 => s1.log (.wait E.kernel))

/-! ## The program -/

/-- Source line 39. -/
def width : Nat := 4

/-- Source line 47. -/
def leftEdge : pixelT := ⟨1, 2, 3, 4⟩

/-- Source line 48. -/
def body : pixelT := ⟨49, 48, 47, 46⟩

/-- Source line 49. -/
def bony : pixelT := ⟨59, 58, 57, 56⟩

/-- Source line 50. -/
def rightEdge : pixelT := ⟨11, 12, 13, 14⟩

/-- Kernel `setupUnormLinear`, source lines 59-64. -/
def setupUnormLinear (D : device) (s : State) : Option State := do
  let s ← image_acc_write D 0 leftEdge s
  let s ← image_acc_write D 1 body s
  let s ← image_acc_write D 2 bony s
  let s ← image_acc_write D 3 rightEdge s
  pure s

/-- Kernel `im1D_Unorm_Linear`, source lines 75-87, returning also the final value of its
counter `i`. -/
def im1D_Unorm_Linear_counted (s : State) : Option (Nat × State) := do
  let i := 0
  let (p, s) ← image_acc_read 0 s
  let s ← test_acc_store i p s
  let i := i + 1
  let (p, s) ← image_acc_read 1 s
  let s ← test_acc_store i p s
  let i := i + 1
  let (p, s) ← image_acc_read 2 s
  let s ← test_acc_store i p s
  let i := i + 1
  let (p, s) ← image_acc_read 3 s
  let s ← test_acc_store i p s
  let i := i + 1
  pure (i, s)

/-- Kernel `im1D_Unorm_Linear` as submitted (work item B). -/
def im1D_Unorm_Linear (s : State) : Option State :=
  (im1D_Unorm_Linear_counted s).map Prod.snd

/-- Source lines 56-66: create the image, submit work item A, wait for it. -/
def setup_phase (Q : queue) (ChanOrder : image_channel_order) (ChanType : image_channel_type)
    (ImgRange_1D : Nat) (s : State) : Option State := do
  let s := image_ctor ChanOrder ChanType ImgRange_1D s
  let (E_Setup, s) := Q.submit .setupUnormLinear (setupUnormLinear Q.dev) s
  let s ← E_Setup.wait s
  pure s

/-- Source lines 69-89: create the result container, submit work item B, wait for it. -/
def read_phase (Q : queue) (numTests : Nat) (s : State) : Option State := do
  let s := buffer_ctor numTests s
  let (E_Test, s) := Q.submit .im1D_Unorm_Linear im1D_Unorm_Linear s
  let s ← E_Test.wait s
  pure s

/-- The loop of source lines 93-103, from counter values `i`, `idx`; one unit of `fuel`
is spent per test of the loop condition. -/
def report_loop (numTests : Nat) : Nat → Nat → Nat → State → Option State
  | 0, _, _, _ => none
  | fuel + 1, i, idx, s =>
    if i < numTests then do
      let (idx, s) :=
        if i = 0 then (0, endl (put "read four pixels, no sampler" s)) else (idx, s)
      let (testPixel, s) ← test_acc_load i s
      let s := put ": " (put_uint i s)
      let s := outputPixel testPixel s
      let s := endl s
      report_loop numTests fuel (i + 1) (idx + 1) s
    else some s

/-- Source lines 91-103: REPORT RESULTS. -/
def report_results (numTests : Nat) (s : State) : Option State := do
  let s ← host_get_access s
  report_loop numTests (numTests + 1) 0 0 s

/-- Source lines 41-105. -/
def test_rw (env : device) (ChanOrder : image_channel_order) (ChanType : image_channel_type)
    (s : State) : Option State := do
  let numTests := 4
  let (Q, s) := queue.ctor env s
  let ImgRange_1D := width
  let s ← setup_phase Q ChanOrder ChanType ImgRange_1D s
  let s ← read_phase Q numTests s
  let s ← report_results numTests s
  pure (scope_exit s)

/-- Source lines 107-123: the exit code and the final state. -/
def main (env : device) (s : State) : Option (Int × State) := do
  let (Q, s) := queue.ctor env s
  let (D, s) := Q.get_device s
  let (supported, s) := D.has_aspect_image s
  let s ←
    if supported then
      test_rw env .rgba .unsigned_int8 s
    else
      some (endl (put "device does not support image operations" s))
  pure (0, s)

/-- One run of the program on the device `env`. -/
def run (env : device) : Option (Int × State) :=
  main env State.init

/-- A device on which reading an image element returns the pixel last written there. -/
def store_device (image_support : Bool) : device :=
  ⟨image_support, fun _ _ p => p⟩

/-! ## Definitions used to state and prove the properties -/

/-- The text of one report line after the index: colon, space, pixel, newline. -/
def report_line (i : Nat) (p : pixelT) : String :=
  Nat.repr i ++ ": " ++ "\x7b" ++ Nat.repr p.s0 ++ "," ++ Nat.repr p.s1 ++ "," ++
    Nat.repr p.s2 ++ "," ++ Nat.repr p.s3 ++ "\x7d " ++ "\n"

/-- The report printed for four result entries. -/
def report_text (p0 p1 p2 p3 : pixelT) : String :=
  "read four pixels, no sampler" ++ "\n" ++ report_line 0 p0 ++ report_line 1 p1 ++
    report_line 2 p2 ++ report_line 3 p3

/-- The runtime calls of one execution of `test_rw` whose queue is number `q`. -/
def test_rw_trace (q : Nat) (co : image_channel_order) (ct : image_channel_type) : List Call :=
  [.queue_ctor q, .image_ctor co ct 4,
   .submit q .setupUnormLinear,
   .image_write 0, .image_write 1, .image_write 2, .image_write 3,
   .wait .setupUnormLinear,
   .buffer_ctor 4,
   .submit q .im1D_Unorm_Linear,
   .image_read 0, .result_write 0, .image_read 1, .result_write 1,
   .image_read 2, .result_write 2, .image_read 3, .result_write 3,
   .wait .im1D_Unorm_Linear,
   .host_access, .host_read 0, .host_read 1, .host_read 2, .host_read 3,
   .buffer_dtor, .image_dtor]

/-- Unpadded decimal rendering in the words of the specification: the base-ten digits of
`n`, most significant first, without leading zeros, and the single digit `0` for zero. -/
def dec (n : Nat) : String :=
  if n = 0 then "0" else String.mk ((Nat.digits 10 n).reverse.map Nat.digitChar)

/-- Construction of a queue. -/
def Call.is_queue_ctor : Call → Bool
  | .queue_ctor _ => true
  | _ => false

/-- Allocation of an image. -/
def Call.is_image_ctor : Call → Bool
  | .image_ctor _ _ _ => true
  | _ => false

/-- Allocation of a result container. -/
def Call.is_buffer_ctor : Call → Bool
  | .buffer_ctor _ => true
  | _ => false

/-- Submission of work to a queue. -/
def Call.is_submit : Call → Bool
  | .submit _ _ => true
  | _ => false

/-- Return of a blocking wait. -/
def Call.is_wait : Call → Bool
  | .wait _ => true
  | _ => false

/-- The two calls of the capability check: `get_device` and the `aspect::image` query. -/
def Call.is_capability_check : Call → Bool
  | .get_device _ => true
  | .has_image _ => true
  | _ => false

/-- Submissions and blocking waits. -/
def Call.on_queue (c : Call) : Bool :=
  c.is_submit || c.is_wait

/-- Host-side access to the result container. -/
def Call.reads_result : Call → Bool
  | .host_access => true
  | .host_read _ => true
  | _ => false

/-- Coordinates of the image writes of a trace, in order. -/
def image_write_coords (tr : List Call) : List Nat :=
  tr.filterMap fun c => match c with
    | .image_write coord => some coord
    | _ => none

/-- Coordinates of the image reads of a trace, in order. -/
def image_read_coords (tr : List Call) : List Nat :=
  tr.filterMap fun c => match c with
    | .image_read coord => some coord
    | _ => none

/-- Result positions written on the device, in order. -/
def result_write_positions (tr : List Call) : List Nat :=
  tr.filterMap fun c => match c with
    | .result_write i => some i
    | _ => none

/-- Result positions read by the host, in order. -/
def host_read_positions (tr : List Call) : List Nat :=
  tr.filterMap fun c => match c with
    | .host_read i => some i
    | _ => none

/-- Number of lines of a text: one per newline, plus one for a non-empty unterminated
last line. -/
def line_count (text : String) : Nat :=
  text.data.count '\n' +
    (match text.data.getLast? with
     | none => 0
     | some c => if c = '\n' then 0 else 1)

/-- A device whose 8-bit unsigned images saturate each channel at 255. -/
def saturating_device (image_support : Bool) : device :=
  ⟨image_support, fun _ ct p =>
    if ct = .unsigned_int8 then ⟨min p.s0 255, min p.s1 255, min p.s2 255, min p.s3 255⟩ else p⟩

/-- The first queue of a run on the device `store_device true`. -/
def first_queue : queue := ⟨0, store_device true⟩

/-- State once work item A has been waited on, when `test_rw` runs first on
`store_device true` with an RGBA image of 8-bit unsigned channels. -/
def setup_done : State :=
  { cout := ""
    calls := [.queue_ctor 0, .image_ctor .rgba .unsigned_int8 4,
      .submit 0 .setupUnormLinear,
      .image_write 0, .image_write 1, .image_write 2, .image_write 3,
      .wait .setupUnormLinear]
    queues := 1
    image_1D := some ⟨.rgba, .unsigned_int8,
      [some leftEdge, some body, some bony, some rightEdge]⟩
    testResults := none }

/-- State once work item B has been waited on, from `setup_done`. -/
def read_done : State :=
  { setup_done with
    calls := setup_done.calls ++ [.buffer_ctor 4, .submit 0 .im1D_Unorm_Linear,
      .image_read 0, .result_write 0, .image_read 1, .result_write 1,
      .image_read 2, .result_write 2, .image_read 3, .result_write 3,
      .wait .im1D_Unorm_Linear]
    testResults := some [some leftEdge, some body, some bony, some rightEdge] }

/-! ## Runs of the phases, in closed form -/

/-- State of the test block once work item A has been waited on. -/
theorem setup_phase_eq (Q : queue) (co : image_channel_order) (ct : image_channel_type)
    (s : State) :
    setup_phase Q co ct width s = some
      { s with
        calls := s.calls ++ [.image_ctor co ct 4, .submit Q.handle .setupUnormLinear,
          .image_write 0, .image_write 1, .image_write 2, .image_write 3,
          .wait .setupUnormLinear]
        image_1D := some ⟨co, ct, [some (Q.dev.stored co ct leftEdge),
          some (Q.dev.stored co ct body), some (Q.dev.stored co ct bony),
          some (Q.dev.stored co ct rightEdge)]⟩ } := by
  simp [setup_phase, image_ctor, queue.submit, event.wait, setupUnormLinear, image_acc_write,
    State.log, width, List.replicate]

/-- State of the test block once work item B has been waited on, for an image whose
first four elements have been written. -/
theorem read_phase_eq (Q : queue) (s : State) (img : image) (p0 p1 p2 p3 : pixelT)
    (himg : s.image_1D = some img)
    (h0 : img.texels[0]? = some (some p0)) (h1 : img.texels[1]? = some (some p1))
    (h2 : img.texels[2]? = some (some p2)) (h3 : img.texels[3]? = some (some p3)) :
    read_phase Q 4 s = some
      { s with
        calls := s.calls ++ [.buffer_ctor 4, .submit Q.handle .im1D_Unorm_Linear,
          .image_read 0, .result_write 0, .image_read 1, .result_write 1,
          .image_read 2, .result_write 2, .image_read 3, .result_write 3,
          .wait .im1D_Unorm_Linear]
        testResults := some [some p0, some p1, some p2, some p3] } := by
  simp [read_phase, buffer_ctor, queue.submit, event.wait, im1D_Unorm_Linear,
    im1D_Unorm_Linear_counted, image_acc_read, test_acc_store, State.log, List.replicate,
    himg, h0, h1, h2, h3]

/-- State after REPORT RESULTS for a result container of four written entries. -/
theorem report_results_eq (s : State) (p0 p1 p2 p3 : pixelT)
    (hres : s.testResults = some [some p0, some p1, some p2, some p3]) :
    report_results 4 s = some
      { s with
        cout := s.cout ++ ("read four pixels, no sampler" ++ "\n" ++ report_line 0 p0 ++
          report_line 1 p1 ++ report_line 2 p2 ++ report_line 3 p3)
        calls := s.calls ++ [.host_access, .host_read 0, .host_read 1, .host_read 2,
          .host_read 3] } := by
  simp [report_results, host_get_access, report_loop, test_acc_load, State.log, hres,
    outputPixel, put, put_uint, endl, report_line, String.append_assoc]

/-- Every execution of `test_rw` returns, and its effect is the report of what the image
retained of the four fixtures, the calls of `test_rw_trace`, and one more queue. -/
theorem test_rw_eq (env : device) (co : image_channel_order) (ct : image_channel_type)
    (s : State) :
    test_rw env co ct s = some
      { cout := s.cout ++ report_text (env.stored co ct leftEdge) (env.stored co ct body)
          (env.stored co ct bony) (env.stored co ct rightEdge)
        calls := s.calls ++ test_rw_trace s.queues co ct
        queues := s.queues + 1
        image_1D := none
        testResults := none } := by
  unfold test_rw
  simp only [queue.ctor, State.log]
  rw [setup_phase_eq]
  simp only [Option.bind_eq_bind, Option.some_bind]
  rw [read_phase_eq _ _
    ⟨co, ct, [some (env.stored co ct leftEdge), some (env.stored co ct body),
      some (env.stored co ct bony), some (env.stored co ct rightEdge)]⟩
    (env.stored co ct leftEdge) (env.stored co ct body)
    (env.stored co ct bony) (env.stored co ct rightEdge) rfl rfl rfl rfl rfl]
  simp only [Option.some_bind]
  rw [report_results_eq _ (env.stored co ct leftEdge) (env.stored co ct body)
    (env.stored co ct bony) (env.stored co ct rightEdge) rfl]
  simp [scope_exit, State.log, report_text, test_rw_trace]

/-! ## Decimal rendering -/

theorem digitChar_isDigit (d : Nat) (h : d < 10) : (Nat.digitChar d).isDigit = true := by
  interval_cases d <;> decide

theorem toDigitsCore_eq_digits (fuel : Nat) : ∀ (n : Nat) (ds : List Char), n < fuel → 0 < n →
    Nat.toDigitsCore 10 fuel n ds = (Nat.digits 10 n).reverse.map Nat.digitChar ++ ds := by
  induction fuel with
  | zero => intro n ds h; omega
  | succ f ih =>
    intro n ds hlt hpos
    rw [Nat.digits_def' (by decide) hpos]
    simp only [Nat.toDigitsCore]
    by_cases hq : n / 10 = 0
    · simp [hq]
    · have hq0 : 0 < n / 10 := Nat.pos_of_ne_zero hq
      have hqf : n / 10 < f := by omega
      simp [hq, ih (n / 10) _ hqf hq0]

/-- The stream's integer insertion writes the unpadded decimal rendering. -/
theorem repr_eq_dec (n : Nat) : Nat.repr n = dec n := by
  unfold dec
  by_cases h : n = 0
  · subst h; rfl
  · simp only [h, if_false]
    show String.mk (Nat.toDigitsCore 10 (n + 1) n []) = _
    rw [toDigitsCore_eq_digits (n + 1) n [] (by omega) (Nat.pos_of_ne_zero h)]
    simp

theorem dec_isDigit (n : Nat) : ∀ c ∈ (dec n).data, c.isDigit = true := by
  intro c hc
  unfold dec at hc
  by_cases h : n = 0
  · subst h
    simp at hc
    subst hc
    decide
  · simp only [h, if_false, List.mem_map, List.mem_reverse] at hc
    obtain ⟨d, hd, rfl⟩ := hc
    exact digitChar_isDigit d (Nat.digits_lt_base (by decide) hd)

theorem dec_no_newline (n : Nat) : '\n' ∉ (dec n).data := by
  intro h
  have := dec_isDigit n _ h
  revert this
  decide

theorem dec_no_space (n : Nat) : ' ' ∉ (dec n).data := by
  intro h
  have := dec_isDigit n _ h
  revert this
  decide

theorem getLast?_append_of_getLast? (l m : List Char) (c : Char)
    (h : m.getLast? = some c) : (l ++ m).getLast? = some c := by
  simp [List.getLast?_append, h]

theorem getLast?_cons_of_getLast? (x : Char) (m : List Char) (c : Char)
    (h : m.getLast? = some c) : (x :: m).getLast? = some c :=
  getLast?_append_of_getLast? [x] m c h

/-! ## Runs of `main`, in closed form -/

theorem main_eq_supported (env : device) (s : State) (hsup : env.image_support = true) :
    main env s = some (0,
      { cout := s.cout ++ report_text (env.stored .rgba .unsigned_int8 leftEdge)
          (env.stored .rgba .unsigned_int8 body) (env.stored .rgba .unsigned_int8 bony)
          (env.stored .rgba .unsigned_int8 rightEdge)
        calls := s.calls ++ ([.queue_ctor s.queues, .get_device s.queues, .has_image true] ++
          test_rw_trace (s.queues + 1) .rgba .unsigned_int8)
        queues := s.queues + 2
        image_1D := none
        testResults := none }) := by
  simp [main, queue.ctor, queue.get_device, device.has_aspect_image, State.log, hsup,
    test_rw_eq]

theorem main_eq_unsupported (env : device) (s : State) (hsup : env.image_support = false) :
    main env s = some (0,
      { s with
        cout := s.cout ++ ("device does not support image operations" ++ "\n")
        calls := s.calls ++ [.queue_ctor s.queues, .get_device s.queues, .has_image false]
        queues := s.queues + 1 }) := by
  simp [main, queue.ctor, queue.get_device, device.has_aspect_image, State.log, hsup,
    put, endl, String.append_assoc]

/-- A run of work item B that returns found an image whose first four elements were
written. -/
theorem read_phase_some (Q : queue) (s sB : State) (h : read_phase Q 4 s = some sB) :
    ∃ img p0 p1 p2 p3, s.image_1D = some img ∧
      img.texels[0]? = some (some p0) ∧ img.texels[1]? = some (some p1) ∧
      img.texels[2]? = some (some p2) ∧ img.texels[3]? = some (some p3) := by
  rcases himg : s.image_1D with _ | img
  · simp [read_phase, buffer_ctor, queue.submit, event.wait, im1D_Unorm_Linear,
      im1D_Unorm_Linear_counted, image_acc_read, State.log, himg] at h
  rcases h0 : img.texels[0]? with _ | _ | p0
  · simp [read_phase, buffer_ctor, queue.submit, event.wait, im1D_Unorm_Linear,
      im1D_Unorm_Linear_counted, image_acc_read, State.log, himg, h0] at h
  · simp [read_phase, buffer_ctor, queue.submit, event.wait, im1D_Unorm_Linear,
      im1D_Unorm_Linear_counted, image_acc_read, State.log, himg, h0] at h
  rcases h1 : img.texels[1]? with _ | _ | p1
  · simp [read_phase, buffer_ctor, queue.submit, event.wait, im1D_Unorm_Linear,
      im1D_Unorm_Linear_counted, image_acc_read, test_acc_store, State.log, List.replicate,
      himg, h0, h1] at h
  · simp [read_phase, buffer_ctor, queue.submit, event.wait, im1D_Unorm_Linear,
      im1D_Unorm_Linear_counted, image_acc_read, test_acc_store, State.log, List.replicate,
      himg, h0, h1] at h
  rcases h2 : img.texels[2]? with _ | _ | p2
  · simp [read_phase, buffer_ctor, queue.submit, event.wait, im1D_Unorm_Linear,
      im1D_Unorm_Linear_counted, image_acc_read, test_acc_store, State.log, List.replicate,
      himg, h0, h1, h2] at h
  · simp [read_phase, buffer_ctor, queue.submit, event.wait, im1D_Unorm_Linear,
      im1D_Unorm_Linear_counted, image_acc_read, test_acc_store, State.log, List.replicate,
      himg, h0, h1, h2] at h
  rcases h3 : img.texels[3]? with _ | _ | p3
  · simp [read_phase, buffer_ctor, queue.submit, event.wait, im1D_Unorm_Linear,
      im1D_Unorm_Linear_counted, image_acc_read, test_acc_store, State.log, List.replicate,
      himg, h0, h1, h2, h3] at h
  · simp [read_phase, buffer_ctor, queue.submit, event.wait, im1D_Unorm_Linear,
      im1D_Unorm_Linear_counted, image_acc_read, test_acc_store, State.log, List.replicate,
      himg, h0, h1, h2, h3] at h
  exact ⟨img, p0, p1, p2, p3, rfl, h0, h1, h2, h3⟩

/-- Work item B, run on an image whose first four elements have been written and a fresh
container of four entries, ends with its counter at 4. -/
theorem im1D_Unorm_Linear_counted_eq (s : State) (img : image) (p0 p1 p2 p3 : pixelT)
    (himg : s.image_1D = some img) (hres : s.testResults = some [none, none, none, none])
    (h0 : img.texels[0]? = some (some p0)) (h1 : img.texels[1]? = some (some p1))
    (h2 : img.texels[2]? = some (some p2)) (h3 : img.texels[3]? = some (some p3)) :
    im1D_Unorm_Linear_counted s = some (4,
      { s with
        calls := s.calls ++ [.image_read 0, .result_write 0, .image_read 1, .result_write 1,
          .image_read 2, .result_write 2, .image_read 3, .result_write 3]
        testResults := some [some p0, some p1, some p2, some p3] }) := by
  simp [im1D_Unorm_Linear_counted, image_acc_read, test_acc_store, State.log,
    himg, hres, h0, h1, h2, h3]

/-! ## The claims -/

/-- C1: in `test_rw`, on a device whose image returns on read the pixel last written at
that index, the setup phase and then the read phase both complete, and afterwards the
result container is exactly the four fixtures in order, `(1,2,3,4)`, `(49,48,47,46)`,
`(59,58,57,56)`, `(11,12,13,14)`, channel for channel; the rest of `test_rw` is the report
of that container followed by the release of the block. -/
theorem test_rw_reads_back_fixtures (env : device) (co : image_channel_order)
    (ct : image_channel_type) (s : State) (hstore : ∀ p, env.stored co ct p = p) :
    ∃ sA sB,
      setup_phase (queue.ctor env s).1 co ct width (queue.ctor env s).2 = some sA ∧
      read_phase (queue.ctor env s).1 4 sA = some sB ∧
      sB.testResults = some [some ⟨1, 2, 3, 4⟩, some ⟨49, 48, 47, 46⟩,
        some ⟨59, 58, 57, 56⟩, some ⟨11, 12, 13, 14⟩] ∧
      sB.testResults = some ([leftEdge, body, bony, rightEdge].map some) ∧
      test_rw env co ct s = (report_results 4 sB).map scope_exit := by
  refine ⟨_, _, setup_phase_eq _ co ct _, read_phase_eq _ _
    ⟨co, ct, [some (env.stored co ct leftEdge), some (env.stored co ct body),
      some (env.stored co ct bony), some (env.stored co ct rightEdge)]⟩
    (env.stored co ct leftEdge) (env.stored co ct body)
    (env.stored co ct bony) (env.stored co ct rightEdge) rfl rfl rfl rfl rfl, ?_, ?_, ?_⟩
  · simp [hstore, leftEdge, body, bony, rightEdge]
  · simp [hstore]
  · rw [test_rw_eq, report_results_eq _ (env.stored co ct leftEdge) (env.stored co ct body)
      (env.stored co ct bony) (env.stored co ct rightEdge) rfl]
    simp [scope_exit, State.log, queue.ctor, report_text, test_rw_trace]

theorem test_rw_reads_back_fixtures_witness :
    ∃ sA sB,
      setup_phase (queue.ctor (store_device true) State.init).1 .rgba .unsigned_int8 width
        (queue.ctor (store_device true) State.init).2 = some sA ∧
      read_phase (queue.ctor (store_device true) State.init).1 4 sA = some sB ∧
      sB.testResults = some [some ⟨1, 2, 3, 4⟩, some ⟨49, 48, 47, 46⟩,
        some ⟨59, 58, 57, 56⟩, some ⟨11, 12, 13, 14⟩] ∧
      sB.testResults = some ([leftEdge, body, bony, rightEdge].map some) ∧
      test_rw (store_device true) .rgba .unsigned_int8 State.init =
        (report_results 4 sB).map scope_exit :=
  test_rw_reads_back_fixtures (store_device true) .rgba .unsigned_int8 State.init
    (fun _ => rfl)

/-- C2: on a device that supports image operations and whose RGBA image of 8-bit unsigned
channels retains every pixel whose channels fit in 8 bits, the program returns and its
complete standard output is the label line followed by the four pixel lines, indices
increasing, each pixel line with one space before its newline. -/
theorem run_prints_five_lines (env : device) (hsup : env.image_support = true)
    (hstore : ∀ p : pixelT, p.s0 < 256 → p.s1 < 256 → p.s2 < 256 → p.s3 < 256 →
      env.stored .rgba .unsigned_int8 p = p) :
    ∃ s, run env = some (0, s) ∧ s.cout = 
      "read four pixels, no sampler\n0: \x7b1,2,3,4\x7d \n1: \x7b49,48,47,46\x7d \n2: \x7b59,58,57,56\x7d \n3: \x7b11,12,13,14\x7d \n" := by
  refine ⟨_, main_eq_supported env State.init hsup, ?_⟩
  rw [hstore leftEdge (by decide) (by decide) (by decide) (by decide),
    hstore body (by decide) (by decide) (by decide) (by decide),
    hstore bony (by decide) (by decide) (by decide) (by decide),
    hstore rightEdge (by decide) (by decide) (by decide) (by decide)]
  rfl

theorem run_prints_five_lines_witness :
    (saturating_device true).image_support = true ∧
    ∃ s, run (saturating_device true) = some (0, s) ∧ s.cout = 
      "read four pixels, no sampler\n0: \x7b1,2,3,4\x7d \n1: \x7b49,48,47,46\x7d \n2: \x7b59,58,57,56\x7d \n3: \x7b11,12,13,14\x7d \n" :=
  ⟨rfl, run_prints_five_lines (saturating_device true) rfl (by
    intro p h0 h1 h2 h3
    obtain ⟨a, b, c, d⟩ := p
    dsimp only at h0 h1 h2 h3
    simp only [saturating_device, if_true]
    simp only [uint4.mk.injEq]
    exact ⟨by omega, by omega, by omega, by omega⟩)⟩

/-- C3: on a device without image support the program returns and its complete standard
output is the single line `device does not support image operations`; the run makes exactly
three runtime calls (one queue construction, `get_device`, the capability query), so no
image is allocated, no result container is allocated, nothing is submitted and nothing is
waited on, and no resource of the test block is alive at the end.  Every execution of
`test_rw` allocates an image (`test_rw_eq`), so `test_rw` was not entered. -/
theorem run_without_image_support (env : device) (hsup : env.image_support = false) :
    ∃ s, run env = some (0, s) ∧
      s.cout = "device does not support image operations\n" ∧
      s.calls = [.queue_ctor 0, .get_device 0, .has_image false] ∧
      s.calls.countP Call.is_image_ctor = 0 ∧
      s.calls.countP Call.is_buffer_ctor = 0 ∧
      s.calls.countP Call.is_submit = 0 ∧
      s.calls.countP Call.is_wait = 0 ∧
      s.image_1D = none ∧ s.testResults = none := by
  refine ⟨_, main_eq_unsupported env State.init hsup, ?_, ?_, ?_, ?_, ?_, ?_, ?_, ?_⟩ <;> rfl

theorem run_without_image_support_witness :
    (store_device false).image_support = false ∧
    ∃ s, run (store_device false) = some (0, s) ∧
      s.cout = "device does not support image operations\n" ∧
      s.calls = [.queue_ctor 0, .get_device 0, .has_image false] ∧
      s.calls.countP Call.is_image_ctor = 0 ∧
      s.calls.countP Call.is_buffer_ctor = 0 ∧
      s.calls.countP Call.is_submit = 0 ∧
      s.calls.countP Call.is_wait = 0 ∧
      s.image_1D = none ∧ s.testResults = none :=
  ⟨rfl, run_without_image_support (store_device false) rfl⟩

/-- C4: for both outcomes of the capability check, whatever the device stores in its images
and whatever state `main` starts from (output already printed included), `main` returns
and its result, the exit code, is 0. -/
theorem main_exit_code_zero (env : device) (s0 : State) :
    ∃ s, main env s0 = some (0, s) := by
  cases hsup : env.image_support
  · exact ⟨_, main_eq_unsupported env s0 hsup⟩
  · exact ⟨_, main_eq_supported env s0 hsup⟩

/-- C5: for every pixel `(r,g,b,a)` and every state of the output stream, `outputPixel`
appends exactly an opening brace, the unpadded decimal renderings of `r`, `g`, `b`, `a` in
that order separated by commas, a closing brace and one space, and changes nothing else;
the appended text contains no newline, contains exactly one space, and that space is its
last character. -/
theorem outputPixel_appends (r g b a : Nat) (s : State) :
    outputPixel ⟨r, g, b, a⟩ s =
      { s with cout := s.cout ++
          ("\x7b" ++ dec r ++ "," ++ dec g ++ "," ++ dec b ++ "," ++ dec a ++ "\x7d ") } ∧
    '\n' ∉ ("\x7b" ++ dec r ++ "," ++ dec g ++ "," ++ dec b ++ "," ++ dec a ++ "\x7d ").data ∧
    ("\x7b" ++ dec r ++ "," ++ dec g ++ "," ++ dec b ++ "," ++ dec a ++ "\x7d ").data.count ' ' = 1 ∧
    ("\x7b" ++ dec r ++ "," ++ dec g ++ "," ++ dec b ++ "," ++ dec a ++ "\x7d ").data.getLast? =
      some ' ' := by
  refine ⟨?_, ?_, ?_, ?_⟩
  · simp [outputPixel, put, put_uint, repr_eq_dec, String.append_assoc]
  · simp [dec_no_newline]
  · simp [List.count_eq_zero_of_not_mem (dec_no_space _)]
  · simp only [String.data_append]
    repeat first
      | rfl
      | apply getLast?_cons_of_getLast?
      | apply getLast?_append_of_getLast?

/-- C6: every execution of `test_rw` returns, and among the runtime calls it makes the
submissions and blocking waits are, in this order, submit work item A, wait on A, submit
work item B, wait on B, and no others (two submissions, two waits); work item B is not
submitted before the wait on A has returned, and the host does not touch the result
container before the wait on B has returned. -/
theorem test_rw_queue_order (env : device) (co : image_channel_order)
    (ct : image_channel_type) (s : State) :
    ∃ s1 tr, test_rw env co ct s = some s1 ∧ s1.calls = s.calls ++ tr ∧
      tr.filter Call.on_queue =
        [.submit s.queues .setupUnormLinear, .wait .setupUnormLinear,
         .submit s.queues .im1D_Unorm_Linear, .wait .im1D_Unorm_Linear] ∧
      tr.countP Call.is_submit = 2 ∧ tr.countP Call.is_wait = 2 ∧
      (∀ c ∈ tr.takeWhile (fun c => c ≠ .wait .setupUnormLinear),
        ∀ q, c ≠ .submit q .im1D_Unorm_Linear) ∧
      (∀ c ∈ tr.takeWhile (fun c => c ≠ .wait .im1D_Unorm_Linear),
        c.reads_result = false) ∧
      (∃ c ∈ tr, c.reads_result = true) := by
  refine ⟨_, test_rw_trace s.queues co ct, test_rw_eq env co ct s, rfl, ?_, ?_, ?_, ?_, ?_, ?_⟩
  · simp [test_rw_trace, List.filter, Call.on_queue, Call.is_submit, Call.is_wait]
  · simp [test_rw_trace, List.countP_cons, Call.is_submit]
  · simp [test_rw_trace, List.countP_cons, Call.is_wait]
  · simp [test_rw_trace, List.takeWhile]
  · simp [test_rw_trace, List.takeWhile, Call.reads_result]
  · exact ⟨.host_access, by simp [test_rw_trace], rfl⟩

/-- C7: whenever the read phase (a fresh result container of length 4, work item B
submitted and waited on) completes from a state, it leaves the image as it was, and
running it again from the state it produced, with a fresh result container, completes
with a result container equal to that of the first run and the image still unchanged. -/
theorem read_phase_idempotent (Q : queue) (s sB : State)
    (h : read_phase Q 4 s = some sB) :
    sB.image_1D = s.image_1D ∧
    ∃ sB2, read_phase Q 4 sB = some sB2 ∧ sB2.testResults = sB.testResults ∧
      sB2.image_1D = s.image_1D := by
  obtain ⟨img, p0, p1, p2, p3, himg, h0, h1, h2, h3⟩ := read_phase_some Q s sB h
  rw [read_phase_eq Q s img p0 p1 p2 p3 himg h0 h1 h2 h3] at h
  injection h with h
  subst h
  refine ⟨rfl, _, read_phase_eq Q _ img p0 p1 p2 p3 himg h0 h1 h2 h3, rfl, rfl⟩

theorem read_phase_idempotent_witness :
    setup_phase first_queue .rgba .unsigned_int8 width
        (queue.ctor (store_device true) State.init).2 = some setup_done ∧
    read_phase first_queue 4 setup_done = some read_done ∧
    (read_done.image_1D = setup_done.image_1D ∧
      ∃ sB2, read_phase first_queue 4 read_done = some sB2 ∧
        sB2.testResults = read_done.testResults ∧ sB2.image_1D = setup_done.image_1D) :=
  ⟨rfl, rfl, read_phase_idempotent first_queue setup_done read_done rfl⟩

/-- C8, as stated, fails: on the image-capable device `store_device true` the program's
standard output has five lines, not six. -/
theorem run_output_not_six_lines :
    ∃ s, run (store_device true) = some (0, s) ∧ line_count s.cout = 5 ∧
      line_count s.cout ≠ 6 :=
  ⟨_, rfl, by decide, by decide⟩

/-- C8, amended: in the concrete scenario (the four fixtures written to positions 0-3 of
an RGBA image of 8-bit unsigned channels that retains pixels fitting in 8 bits, on an
image-capable device) the program's standard output consists of exactly five lines, every
one of them newline-terminated. -/
theorem run_output_five_lines (env : device) (hsup : env.image_support = true)
    (hstore : ∀ p : pixelT, p.s0 < 256 → p.s1 < 256 → p.s2 < 256 → p.s3 < 256 →
      env.stored .rgba .unsigned_int8 p = p) :
    ∃ s, run env = some (0, s) ∧ line_count s.cout = 5 ∧
      s.cout.data.count '\n' = 5 ∧ s.cout.data.getLast? = some '\n' := by
  refine ⟨_, main_eq_supported env State.init hsup, ?_⟩
  rw [hstore leftEdge (by decide) (by decide) (by decide) (by decide),
    hstore body (by decide) (by decide) (by decide) (by decide),
    hstore bony (by decide) (by decide) (by decide) (by decide),
    hstore rightEdge (by decide) (by decide) (by decide) (by decide)]
  decide

theorem run_output_five_lines_witness :
    (store_device true).image_support = true ∧
    ∃ s, run (store_device true) = some (0, s) ∧ line_count s.cout = 5 ∧
      s.cout.data.count '\n' = 5 ∧ s.cout.data.getLast? = some '\n' :=
  ⟨rfl, run_output_five_lines (store_device true) rfl (fun _ _ _ _ _ => rfl)⟩

/-- C9, as stated, fails: on the image-capable device `store_device true` the run
constructs two queues, not one; the capability check is made on the first and both work
items are submitted to the second. -/
theorem run_constructs_two_queues :
    ∃ s, run (store_device true) = some (0, s) ∧
      s.calls.countP Call.is_queue_ctor = 2 ∧
      s.calls.countP Call.is_queue_ctor ≠ 1 ∧
      Call.get_device 0 ∈ s.calls ∧
      Call.submit 1 .setupUnormLinear ∈ s.calls ∧
      Call.submit 1 .im1D_Unorm_Linear ∈ s.calls :=
  ⟨_, rfl, by decide, by decide, by decide, by decide, by decide⟩

/-- C9, amended: in every run of the program the entry point first constructs one queue
(queue 0) and makes the capability check on it: the run begins with the construction of
queue 0, `get_device` on queue 0 and the `aspect::image` query, and these are the only
`get_device` call and the only capability query of the run.  On the image-capable path the
test procedure constructs a second queue of its own (queue 1), to which both work items are
submitted.  The number of queue constructions in the run is 2 on the image-capable path and
1 otherwise. -/
theorem run_queue_constructions (env : device) :
    ∃ s, run env = some (0, s) ∧
      s.calls.countP Call.is_queue_ctor = (if env.image_support then 2 else 1) ∧
      (∀ q, Call.get_device q ∈ s.calls → q = 0) ∧
      (∀ q k, Call.submit q k ∈ s.calls → q = 1) ∧
      (env.image_support = true →
        s.calls.filter Call.is_submit =
          [.submit 1 .setupUnormLinear, .submit 1 .im1D_Unorm_Linear]) ∧
      s.calls.take 3 = [.queue_ctor 0, .get_device 0, .has_image env.image_support] ∧
      Call.queue_ctor 0 ∈ s.calls ∧
      Call.get_device 0 ∈ s.calls ∧
      Call.has_image env.image_support ∈ s.calls ∧
      s.calls.filter Call.is_queue_ctor =
        (if env.image_support then [.queue_ctor 0, .queue_ctor 1] else [.queue_ctor 0]) ∧
      s.calls.filter Call.is_capability_check =
        [.get_device 0, .has_image env.image_support] ∧
      (env.image_support = true →
        Call.queue_ctor 1 ∈ s.calls ∧
        Call.submit 1 .setupUnormLinear ∈ s.calls ∧
        Call.submit 1 .im1D_Unorm_Linear ∈ s.calls) := by
  cases hsup : env.image_support
  · refine ⟨_, main_eq_unsupported env State.init hsup, ?_, ?_, ?_, ?_, ?_, ?_, ?_, ?_, ?_,
      ?_, ?_⟩
    · rfl
    · simp [State.init]
    · simp [State.init]
    · simp
    · rfl
    · simp [State.init]
    · simp [State.init]
    · simp [State.init]
    · rfl
    · rfl
    · simp
  · refine ⟨_, main_eq_supported env State.init hsup, ?_, ?_, ?_, ?_, ?_, ?_, ?_, ?_, ?_,
      ?_, ?_⟩
    · rfl
    · simp [State.init, test_rw_trace]
    · simp only [State.init, test_rw_trace, List.nil_append, List.cons_append, List.mem_cons,
        Call.submit.injEq, List.mem_nil_iff, or_false, false_or, reduceCtorEq]
      rintro q k (⟨h, -⟩ | ⟨h, -⟩) <;> exact h
    · intro _
      rfl
    · rfl
    · simp [State.init]
    · simp [State.init]
    · simp [State.init]
    · rfl
    · rfl
    · intro _
      simp [State.init, test_rw_trace]

/-- C10: every execution of `test_rw` returns (no indexed access falls outside its
resource and no unwritten element is read).  The image writes and the image reads are at
coordinates 0, 1, 2, 3, all below `width = 4`; work item B writes result positions
0, 1, 2, 3, once each, all below the container length `numTests = 4`, and its counter ends
at 4; the host reads exactly positions 0, 1, 2, 3, the positions work item B wrote. -/
theorem test_rw_indices_in_bounds (env : device) (co : image_channel_order)
    (ct : image_channel_type) (s : State) :
    ∃ s1 tr, test_rw env co ct s = some s1 ∧ s1.calls = s.calls ++ tr ∧
      image_write_coords tr = [0, 1, 2, 3] ∧
      image_read_coords tr = [0, 1, 2, 3] ∧
      (∀ c ∈ image_write_coords tr ++ image_read_coords tr, c < width) ∧
      result_write_positions tr = [0, 1, 2, 3] ∧
      (result_write_positions tr).Nodup ∧
      (∀ i ∈ result_write_positions tr, i < 4) ∧
      host_read_positions tr = List.range 4 ∧
      host_read_positions tr = result_write_positions tr ∧
      (∃ sA sB, setup_phase (queue.ctor env s).1 co ct width (queue.ctor env s).2 = some sA ∧
        im1D_Unorm_Linear_counted
          ((queue.ctor env s).1.submit .im1D_Unorm_Linear im1D_Unorm_Linear
            (buffer_ctor 4 sA)).2 = some (4, sB)) := by
  refine ⟨_, test_rw_trace s.queues co ct, test_rw_eq env co ct s, rfl, rfl, rfl, ?_, rfl,
    ?_, ?_, rfl, rfl, ?_⟩
  · intro c hc
    have h : image_write_coords (test_rw_trace s.queues co ct) ++
        image_read_coords (test_rw_trace s.queues co ct) = [0, 1, 2, 3, 0, 1, 2, 3] := rfl
    rw [h] at hc
    simp at hc
    unfold width
    omega
  · have h : result_write_positions (test_rw_trace s.queues co ct) = [0, 1, 2, 3] := rfl
    rw [h]
    decide
  · intro i hi
    have h : result_write_positions (test_rw_trace s.queues co ct) = [0, 1, 2, 3] := rfl
    rw [h] at hi
    simp at hi
    omega
  · exact ⟨_, _, setup_phase_eq _ co ct _, im1D_Unorm_Linear_counted_eq _
      ⟨co, ct, [some (env.stored co ct leftEdge), some (env.stored co ct body),
        some (env.stored co ct bony), some (env.stored co ct rightEdge)]⟩
      (env.stored co ct leftEdge) (env.stored co ct body)
      (env.stored co ct bony) (env.stored co ct rightEdge) rfl rfl rfl rfl rfl rfl⟩

end BasicRW
